import Mathlib

/-!
Shallow embedding of the pose-comparison engine
(`src/pose-utils/comparePoses.ts`) and verification of the specified
properties of its data model, normalization pipeline and scoring logic.

Numbers are modelled as real numbers; JavaScript `undefined` for optional
fields is modelled with `Option`; the `throw`/`catch` boundary of the
source is modelled with `Except` at the entry point and `Option` for the
internal `normalizePose` failure.
-/

namespace Statuesque

/-- A single pose landmark: planar coordinates, optional depth, optional
visibility (source: interface `Landmark`). -/
structure Landmark where
  x : ℝ
  y : ℝ
  z : Option ℝ := none
  visibility : Option ℝ := none

instance : Inhabited Landmark := ⟨{ x := 0, y := 0, z := none, visibility := none }⟩

/-- MediaPipe landmark indices used by the engine (source: enum
`PoseLandmarkIndex`). -/
def NOSE : Nat := 0
def LEFT_SHOULDER : Nat := 11
def RIGHT_SHOULDER : Nat := 12
def LEFT_ELBOW : Nat := 13
def RIGHT_ELBOW : Nat := 14
def LEFT_WRIST : Nat := 15
def RIGHT_WRIST : Nat := 16
def LEFT_HIP : Nat := 23
def RIGHT_HIP : Nat := 24
def LEFT_KNEE : Nat := 25
def RIGHT_KNEE : Nat := 26
def LEFT_ANKLE : Nat := 27
def RIGHT_ANKLE : Nat := 28

/-- Configuration record (source: `ComparisonConfig`, fully merged with
defaults as in `{...DEFAULT_CONFIG, ...config}`). -/
structure ComparisonConfig where
  visibilityThreshold : ℝ
  distanceThreshold : ℝ
  similarityThreshold : ℝ
  useAngles : Bool
  angleWeight : ℝ
  perLimbNormalization : Bool
  angleOnly : Bool

/-- Body regions (source: type `BodyRegion`). -/
inductive BodyRegion where
  | upper
  | lower
  | left_arm
  | right_arm
deriving DecidableEq

/-- Result of a pose comparison (source: `ComparisonResult`). -/
structure ComparisonResult where
  isMatching : Bool
  similarity : ℝ
  landmarksCompared : Nat
  validLandmarks : Nat
  meanDistance : ℝ
  comparedRegions : List BodyRegion
  regionDistances : Option (List (BodyRegion × ℝ)) := none

/-- Default configuration (source: `DEFAULT_CONFIG`). -/
def DEFAULT_CONFIG : ComparisonConfig :=
  { visibilityThreshold := 0.5
    distanceThreshold := 0.5
    similarityThreshold := 0.5
    useAngles := false
    angleWeight := 0.3
    perLimbNormalization := false
    angleOnly := false }

/-- The degenerate zero-confidence result returned on every internal
failure path (source: the literal objects at the `validCount === 0` and
`catch` sites of `comparePoses` / `compareAnglesOnly`). -/
def degenerateResult : ComparisonResult :=
  { isMatching := false
    similarity := 0
    landmarksCompared := 0
    validLandmarks := 0
    meanDistance := 1
    comparedRegions := [] }

/-- Effective visibility: `lm.visibility ?? 1`. -/
def effVis (lm : Landmark) : ℝ := lm.visibility.getD 1

/-- Euclidean distance between two landmarks, depth defaulting to 0
(source: `distance`). -/
noncomputable def distance (a b : Landmark) : ℝ :=
  Real.sqrt ((a.x - b.x) ^ 2 + (a.y - b.y) ^ 2 + (a.z.getD 0 - b.z.getD 0) ^ 2)

/-- Midpoint of two landmarks; the depth is present only when both inputs
carry one (source: `midpoint`). -/
noncomputable def midpoint (a b : Landmark) : Landmark :=
  { x := (a.x + b.x) / 2
    y := (a.y + b.y) / 2
    z := match a.z, b.z with
      | some az, some bz => some ((az + bz) / 2)
      | _, _ => none
    visibility := none }

/-- The ten predefined limb segments as (start index, end index) pairs
(source: the `limbs` table of `normalizeLandmarksByLimbs`; the names are
dropped since the code never reads them). -/
def limbs : List (Nat × Nat) :=
  [(LEFT_SHOULDER, LEFT_ELBOW), (LEFT_ELBOW, LEFT_WRIST),
   (RIGHT_SHOULDER, RIGHT_ELBOW), (RIGHT_ELBOW, RIGHT_WRIST),
   (LEFT_HIP, LEFT_KNEE), (LEFT_KNEE, LEFT_ANKLE),
   (RIGHT_HIP, RIGHT_KNEE), (RIGHT_KNEE, RIGHT_ANKLE),
   (LEFT_SHOULDER, LEFT_HIP), (RIGHT_SHOULDER, RIGHT_HIP)]

/-- JavaScript `v || d` on an optional nonnegative number: absent or zero
falls back to the default. -/
noncomputable def jsOr (v : Option ℝ) (d : ℝ) : ℝ :=
  match v with
  | some x => if x = 0 then d else x
  | none => d

/-- One step of the limb-length `Map` construction: when both limb
endpoints exist, record the floored limb length under the start index
(source: the loop body of `normalizeLandmarksByLimbs`). -/
noncomputable def limbStepFn (landmarks : List Landmark) (m : List (Nat × ℝ)) :
    Nat × Nat → List (Nat × ℝ)
  | (s, e) =>
    match landmarks.get? s, landmarks.get? e with
    | some sl, some el => (s, max (distance sl el) 0.01) :: m
    | _, _ => m

/-- The limb-length map keyed by each limb's start index; a later limb
overwrites an earlier one with the same start (source: the `limbLengths`
`Map` of `normalizeLandmarksByLimbs`).  Overwriting is modelled by
prepending, since `List.lookup` returns the first hit. -/
noncomputable def limbLengths (landmarks : List Landmark) : List (Nat × ℝ) :=
  limbs.foldl (limbStepFn landmarks) []

/-- Divide a landmark's coordinates by a limb length. -/
noncomputable def scaleLandmark (limbLength : ℝ) (lm : Landmark) : Landmark :=
  { x := lm.x / limbLength
    y := lm.y / limbLength
    z := lm.z.map (· / limbLength)
    visibility := lm.visibility }

/-- Index-tracking map of `scaleLandmark` over a landmark list, looking
each index up in the limb-length map (source: the final `landmarks.map`
of `normalizeLandmarksByLimbs`). -/
noncomputable def scaleLandmarksAux (ll : List (Nat × ℝ)) : Nat → List Landmark → List Landmark
  | _, [] => []
  | i, lm :: rest => scaleLandmark (jsOr (ll.lookup i) 1) lm :: scaleLandmarksAux ll (i + 1) rest

/-- Per-limb normalization (source: `normalizeLandmarksByLimbs`). -/
noncomputable def normalizeLandmarksByLimbs (landmarks : List Landmark) : List Landmark :=
  scaleLandmarksAux (limbLengths landmarks) 0 landmarks

/-- Angle at vertex `b` between the rays towards `a` and `c`, in degrees
(source: `computeAngle`). -/
noncomputable def computeAngle (a b c : Landmark) : ℝ :=
  let v1x := a.x - b.x
  let v1y := a.y - b.y
  let v2x := c.x - b.x
  let v2y := c.y - b.y
  let dot := v1x * v2x + v1y * v2y
  let mag1 := Real.sqrt (v1x ^ 2 + v1y ^ 2)
  let mag2 := Real.sqrt (v2x ^ 2 + v2y ^ 2)
  if mag1 = 0 ∨ mag2 = 0 then 0
  else Real.arccos (max (-1) (min 1 (dot / (mag1 * mag2)))) * (180 / Real.pi)

/-- Bounds-checked visibility test on a landmark list (source: the local
`isVisible` of `detectVisibleRegions`). -/
noncomputable def isVisibleIdx (landmarks : List Landmark) (config : ComparisonConfig) (idx : Nat) : Bool :=
  decide (idx < landmarks.length) &&
    decide (effVis (landmarks.getD idx default) ≥ config.visibilityThreshold)

/-- Region detection (source: `detectVisibleRegions`); the four pushes are
modelled by list append in source order. -/
noncomputable def detectVisibleRegions (landmarks : List Landmark) (config : ComparisonConfig) : List BodyRegion :=
  (if isVisibleIdx landmarks config LEFT_SHOULDER || isVisibleIdx landmarks config RIGHT_SHOULDER
    then [BodyRegion.upper] else []) ++
  (if isVisibleIdx landmarks config LEFT_HIP || isVisibleIdx landmarks config RIGHT_HIP
    then [BodyRegion.lower] else []) ++
  (if isVisibleIdx landmarks config LEFT_SHOULDER &&
      (isVisibleIdx landmarks config LEFT_ELBOW || isVisibleIdx landmarks config LEFT_WRIST)
    then [BodyRegion.left_arm] else []) ++
  (if isVisibleIdx landmarks config RIGHT_SHOULDER &&
      (isVisibleIdx landmarks config RIGHT_ELBOW || isVisibleIdx landmarks config RIGHT_WRIST)
    then [BodyRegion.right_arm] else [])

/-- Index-tracking visibility filter (source: `filterVisibleLandmarks`,
whose map/filter/map pipeline keeps exactly the indices of landmarks with
effective visibility at or above the threshold, in order). -/
noncomputable def filterVisibleAux (config : ComparisonConfig) : Nat → List Landmark → List Nat
  | _, [] => []
  | i, lm :: rest =>
    if effVis lm ≥ config.visibilityThreshold
    then i :: filterVisibleAux config (i + 1) rest
    else filterVisibleAux config (i + 1) rest

/-- Indices of the sufficiently visible landmarks (source:
`filterVisibleLandmarks`). -/
noncomputable def filterVisibleLandmarks (landmarks : List Landmark) (config : ComparisonConfig) : List Nat :=
  filterVisibleAux config 0 landmarks

/-- Normalized pose (source: interface `NormalizedPose`). -/
structure NormalizedPose where
  landmarks : List Landmark
  origin : Landmark
  scale : ℝ
  visibleLandmarkIndices : List Nat

/-- Presence-and-confidence check used by the origin/scale fallback
chains: the landmark exists and `(lm.visibility ?? 1) > 0.3`. -/
noncomputable def presVis (o : Option Landmark) : Bool :=
  match o with
  | some lm => decide (effVis lm > 0.3)
  | none => false

/-- Largest pairwise distance over a landmark list, folded from an
initial accumulator (source: the double loop of the scale fallback in
`normalizePose`, with initial `maxDist = 0.01`). -/
noncomputable def maxPairDist : List Landmark → ℝ → ℝ
  | [], acc => acc
  | lm :: rest, acc => maxPairDist rest (rest.foldl (fun a l => max a (distance lm l)) acc)

/-- Origin of a pose by the source's fallback chain: hip midpoint, else
shoulder midpoint, else nose, else mean of the visible landmarks (source:
the `origin` computation of `normalizePose`). -/
noncomputable def originOf (landmarksToNormalize : List Landmark) (visibleIndices : List Nat) : Landmark :=
  let leftHip := landmarksToNormalize.get? LEFT_HIP
  let rightHip := landmarksToNormalize.get? RIGHT_HIP
  let leftShoulder := landmarksToNormalize.get? LEFT_SHOULDER
  let rightShoulder := landmarksToNormalize.get? RIGHT_SHOULDER
  let nose := landmarksToNormalize.get? NOSE
  if presVis leftHip && presVis rightHip then
    midpoint (leftHip.getD default) (rightHip.getD default)
  else if presVis leftShoulder && presVis rightShoulder then
    midpoint (leftShoulder.getD default) (rightShoulder.getD default)
  else if presVis nose then
    nose.getD default
  else
    let visibleLms := visibleIndices.map fun i => landmarksToNormalize.getD i default
    { x := (visibleLms.map Landmark.x).sum / visibleLms.length
      y := (visibleLms.map Landmark.y).sum / visibleLms.length }

/-- Scale of a pose by the source's fallback chain: torso length, else
shoulder width, else largest pairwise distance, floored at 0.01 (source:
the `scale` computation of `normalizePose`). -/
noncomputable def scaleOf (landmarksToNormalize : List Landmark) (visibleIndices : List Nat) : ℝ :=
  let leftHip := landmarksToNormalize.get? LEFT_HIP
  let rightHip := landmarksToNormalize.get? RIGHT_HIP
  let leftShoulder := landmarksToNormalize.get? LEFT_SHOULDER
  let rightShoulder := landmarksToNormalize.get? RIGHT_SHOULDER
  if presVis leftShoulder && presVis rightShoulder && presVis leftHip && presVis rightHip then
    max (distance (midpoint (leftShoulder.getD default) (rightShoulder.getD default))
                  (midpoint (leftHip.getD default) (rightHip.getD default))) 0.01
  else if presVis leftShoulder && presVis rightShoulder then
    max (distance (leftShoulder.getD default) (rightShoulder.getD default)) 0.01
  else
    maxPairDist (visibleIndices.map fun i => landmarksToNormalize.getD i default) 0.01

/-- Translate-and-scale of one landmark (source: the final `map` of
`normalizePose`: planar coordinates recentered then scaled, depth scaled
only, visibility passed through). -/
noncomputable def normalizeLm (origin : Landmark) (scale : ℝ) (lm : Landmark) : Landmark :=
  { x := (lm.x - origin.x) / scale
    y := (lm.y - origin.y) / scale
    z := lm.z.map (· / scale)
    visibility := lm.visibility }

/-- Pose normalization (source: `normalizePose`).  The source's
`throw new Error("No visible landmarks to normalize")` is modelled as
`none`. -/
noncomputable def normalizePose (landmarks : List Landmark) (config : ComparisonConfig) : Option NormalizedPose :=
  let visibleIndices := filterVisibleLandmarks landmarks config
  if visibleIndices = [] then none
  else
    let landmarksToNormalize :=
      if config.perLimbNormalization then normalizeLandmarksByLimbs landmarks else landmarks
    let origin := originOf landmarksToNormalize visibleIndices
    let scale := scaleOf landmarksToNormalize visibleIndices
    some
      { landmarks := landmarksToNormalize.map (normalizeLm origin scale)
        origin := origin
        scale := scale
        visibleLandmarkIndices := visibleIndices }

/-- Output of the distance feature extractor (source: the anonymous
record returned by `computeDistanceFeatures`). -/
structure DistanceFeatures where
  distances : List ℝ
  validCount : Nat

/-- Distance features over the common visible-index set (source:
`computeDistanceFeatures`). -/
noncomputable def computeDistanceFeatures (targetPose currentPose : NormalizedPose) : DistanceFeatures :=
  let commonIndices := targetPose.visibleLandmarkIndices.filter
    fun idx => decide (idx ∈ currentPose.visibleLandmarkIndices)
  { distances := commonIndices.map fun idx =>
      distance (targetPose.landmarks.getD idx default) (currentPose.landmarks.getD idx default)
    validCount := commonIndices.length }

/-- The six fixed anatomical joint triples (source: `jointTriples` in
`computeAngleFeatures`). -/
def jointTriples : List (Nat × Nat × Nat) :=
  [(LEFT_SHOULDER, LEFT_ELBOW, LEFT_WRIST),
   (RIGHT_SHOULDER, RIGHT_ELBOW, RIGHT_WRIST),
   (LEFT_HIP, LEFT_KNEE, LEFT_ANKLE),
   (RIGHT_HIP, RIGHT_KNEE, RIGHT_ANKLE),
   (LEFT_SHOULDER, LEFT_HIP, LEFT_KNEE),
   (RIGHT_SHOULDER, RIGHT_HIP, RIGHT_KNEE)]

/-- Normalized per-triple angle differences (source:
`computeAngleFeatures`; the source's `validCount` is the length of this
list). -/
noncomputable def computeAngleFeatures (targetPose currentPose : NormalizedPose) : List ℝ :=
  jointTriples.filterMap fun t =>
    if t.1 ∈ targetPose.visibleLandmarkIndices ∧ t.2.1 ∈ targetPose.visibleLandmarkIndices ∧
       t.2.2 ∈ targetPose.visibleLandmarkIndices ∧ t.1 ∈ currentPose.visibleLandmarkIndices ∧
       t.2.1 ∈ currentPose.visibleLandmarkIndices ∧ t.2.2 ∈ currentPose.visibleLandmarkIndices
    then
      let targetAngle := computeAngle (targetPose.landmarks.getD t.1 default)
        (targetPose.landmarks.getD t.2.1 default) (targetPose.landmarks.getD t.2.2 default)
      let currentAngle := computeAngle (currentPose.landmarks.getD t.1 default)
        (currentPose.landmarks.getD t.2.1 default) (currentPose.landmarks.getD t.2.2 default)
      let angleDiff := |targetAngle - currentAngle|
      some (min angleDiff (180 - angleDiff) / 180)
    else none

/-- The successful angle-only result (source: the final object literal of
`compareAnglesOnly`). -/
noncomputable def anglesOnlyResult (targetPose currentPose : NormalizedPose)
    (config : ComparisonConfig) : ComparisonResult :=
  let angles := computeAngleFeatures targetPose currentPose
  let meanAngleDiff := angles.sum / angles.length
  let similarity := 1 - meanAngleDiff
  let targetRegions := detectVisibleRegions targetPose.landmarks config
  let currentRegions := detectVisibleRegions currentPose.landmarks config
  { isMatching := decide (similarity ≥ config.similarityThreshold)
    similarity := max 0 (min 1 similarity)
    landmarksCompared := angles.length
    validLandmarks := angles.length
    meanDistance := meanAngleDiff
    comparedRegions := targetRegions.filter fun r => decide (r ∈ currentRegions) }

/-- Angle-only comparison (source: `compareAnglesOnly`; its internal
`try`/`catch` is modelled by matching on the two `normalizePose`
results). -/
noncomputable def compareAnglesOnly (targetLandmarks currentLandmarks : List Landmark)
    (config : ComparisonConfig) : ComparisonResult :=
  match normalizePose targetLandmarks config, normalizePose currentLandmarks config with
  | some targetPose, some currentPose =>
    if (computeAngleFeatures targetPose currentPose).length = 0 then degenerateResult
    else anglesOnlyResult targetPose currentPose config
  | _, _ => degenerateResult

/-- Per-region landmark index table (source: `regionIndices` in
`comparePoses`). -/
def regionIndices : BodyRegion → List Nat
  | BodyRegion.upper => [LEFT_SHOULDER, RIGHT_SHOULDER, LEFT_ELBOW, RIGHT_ELBOW]
  | BodyRegion.lower => [LEFT_HIP, RIGHT_HIP, LEFT_KNEE, RIGHT_KNEE, LEFT_ANKLE, RIGHT_ANKLE]
  | BodyRegion.left_arm => [LEFT_SHOULDER, LEFT_ELBOW, LEFT_WRIST]
  | BodyRegion.right_arm => [RIGHT_SHOULDER, RIGHT_ELBOW, RIGHT_WRIST]

/-- The successful standard-mode result (source: the final object literal
of `comparePoses`). -/
noncomputable def standardResult (targetPose currentPose : NormalizedPose)
    (config : ComparisonConfig) : ComparisonResult :=
  let distFeatures := computeDistanceFeatures targetPose currentPose
  let meanDistance := distFeatures.distances.sum / distFeatures.distances.length
  let baseSimilarity := max 0 (1 - meanDistance)
  let similarity :=
    if config.useAngles then
      let angles := computeAngleFeatures targetPose currentPose
      if angles.length > 0 then
        let meanAngleDiff := angles.sum / angles.length
        baseSimilarity * (1 - config.angleWeight) + (1 - meanAngleDiff) * config.angleWeight
      else baseSimilarity
    else baseSimilarity
  let targetRegions := detectVisibleRegions targetPose.landmarks config
  let currentRegions := detectVisibleRegions currentPose.landmarks config
  let comparedRegions := targetRegions.filter fun r => decide (r ∈ currentRegions)
  let regionDistances := comparedRegions.filterMap fun region =>
    let vals := (regionIndices region).filterMap fun idx =>
      if idx ∈ targetPose.visibleLandmarkIndices ∧ idx ∈ currentPose.visibleLandmarkIndices
      then some (distance (targetPose.landmarks.getD idx default)
                          (currentPose.landmarks.getD idx default))
      else none
    if vals.length > 0 then some (region, vals.sum / vals.length) else none
  { isMatching := decide (similarity ≥ config.similarityThreshold)
    similarity := max 0 (min 1 similarity)
    landmarksCompared := targetPose.visibleLandmarkIndices.length
    validLandmarks := distFeatures.validCount
    meanDistance := meanDistance
    comparedRegions := comparedRegions
    regionDistances := some regionDistances }

/-- Entry point (source: `comparePoses`).  The empty-input `throw` is the
only `Except.error` path; the outer `try`/`catch` is modelled by matching
on the two `normalizePose` results, every internal failure giving
`degenerateResult`. -/
noncomputable def comparePoses (targetLandmarks currentLandmarks : List Landmark)
    (config : ComparisonConfig := DEFAULT_CONFIG) : Except String ComparisonResult :=
  if targetLandmarks.length = 0 ∨ currentLandmarks.length = 0 then
    Except.error "Landmark arrays cannot be empty"
  else if config.angleOnly then
    Except.ok (compareAnglesOnly targetLandmarks currentLandmarks config)
  else
    match normalizePose targetLandmarks config, normalizePose currentLandmarks config with
    | some targetPose, some currentPose =>
      if (computeDistanceFeatures targetPose currentPose).validCount = 0 then
        Except.ok degenerateResult
      else Except.ok (standardResult targetPose currentPose config)
    | _, _ => Except.ok degenerateResult

/-- Planar translation of a landmark by a constant vector. -/
noncomputable def translate (d : ℝ × ℝ) (lm : Landmark) : Landmark :=
  { lm with x := lm.x + d.1, y := lm.y + d.2 }

/-- The default configuration with `angleOnly` switched on. -/
def angleOnlyConfig : ComparisonConfig := { DEFAULT_CONFIG with angleOnly := true }

/-- A fully visible landmark, as in spec Scenario A. -/
def lmV : Landmark := { x := 0.5, y := 0.5, visibility := some 1 }

/-- A fully occluded landmark. -/
def lmZ : Landmark := { x := 0.5, y := 0.5, visibility := some 0 }

/-- A 33-joint pose whose joints are all fully occluded. -/
def pose33z : List Landmark :=
  [lmZ, lmZ, lmZ, lmZ, lmZ, lmZ, lmZ, lmZ, lmZ, lmZ, lmZ,
   lmZ, lmZ, lmZ, lmZ, lmZ, lmZ, lmZ, lmZ, lmZ, lmZ, lmZ,
   lmZ, lmZ, lmZ, lmZ, lmZ, lmZ, lmZ, lmZ, lmZ, lmZ, lmZ]

/-- A 33-joint pose whose joints are all fully visible. -/
def pose33v : List Landmark :=
  [lmV, lmV, lmV, lmV, lmV, lmV, lmV, lmV, lmV, lmV, lmV,
   lmV, lmV, lmV, lmV, lmV, lmV, lmV, lmV, lmV, lmV, lmV,
   lmV, lmV, lmV, lmV, lmV, lmV, lmV, lmV, lmV, lmV, lmV]

/-- A fully visible landmark at the planar origin. -/
def lmO : Landmark := { x := 0, y := 0, visibility := some 1 }

/-- A fully visible landmark at (2, 0): the left wrist of `ex3`, two
units away from the left elbow. -/
def lmW : Landmark := { x := 2, y := 0, visibility := some 1 }

/-- A 33-joint pose whose left wrist (index 15) sits two units from the
left elbow (index 13); all other joints coincide at the origin. -/
def ex3 : List Landmark :=
  [lmO, lmO, lmO, lmO, lmO, lmO, lmO, lmO, lmO, lmO, lmO,
   lmO, lmO, lmO, lmO, lmW, lmO, lmO, lmO, lmO, lmO, lmO,
   lmO, lmO, lmO, lmO, lmO, lmO, lmO, lmO, lmO, lmO, lmO]

/-- Claim C3 formalized at the left wrist, whose owning limb is
unambiguously the left forearm (elbow 13 → wrist 15): per-limb
normalization is claimed to rescale each joint by the floored length of
its owning limb. -/
def wristScaledByOwnLimb : Prop :=
  ∀ lms : List Landmark, lms.length = 33 →
    (normalizeLandmarksByLimbs lms).get? LEFT_WRIST =
      (lms.get? LEFT_WRIST).map (scaleLandmark
        (max (distance (lms.getD LEFT_ELBOW default) (lms.getD LEFT_WRIST default)) 0.01))

/-- The end joint of the limb owning each start index after the source's
last-write-wins `Map` construction: shoulders are owned by their torso
side (the last limb in the table starting there), elbows by their
forearm, hips by their thigh, knees by their calf. -/
def startLimbEnd : Nat → Option Nat :=
  fun i =>
    if i = LEFT_SHOULDER then some LEFT_HIP
    else if i = RIGHT_SHOULDER then some RIGHT_HIP
    else if i = LEFT_ELBOW then some LEFT_WRIST
    else if i = RIGHT_ELBOW then some RIGHT_WRIST
    else if i = LEFT_HIP then some LEFT_KNEE
    else if i = RIGHT_HIP then some RIGHT_KNEE
    else if i = LEFT_KNEE then some LEFT_ANKLE
    else if i = RIGHT_KNEE then some RIGHT_ANKLE
    else none

/-- The limb-length association list produced by `limbLengths` on a full
33-joint pose, written out: latest-processed limbs sit at the head, so a
lookup (first hit) realizes the source `Map`'s last-write-wins keying. -/
noncomputable def limbTable (lms : List Landmark) : List (Nat × ℝ) :=
  [(RIGHT_SHOULDER, max (distance (lms.getD RIGHT_SHOULDER default) (lms.getD RIGHT_HIP default)) 0.01),
   (LEFT_SHOULDER, max (distance (lms.getD LEFT_SHOULDER default) (lms.getD LEFT_HIP default)) 0.01),
   (RIGHT_KNEE, max (distance (lms.getD RIGHT_KNEE default) (lms.getD RIGHT_ANKLE default)) 0.01),
   (RIGHT_HIP, max (distance (lms.getD RIGHT_HIP default) (lms.getD RIGHT_KNEE default)) 0.01),
   (LEFT_KNEE, max (distance (lms.getD LEFT_KNEE default) (lms.getD LEFT_ANKLE default)) 0.01),
   (LEFT_HIP, max (distance (lms.getD LEFT_HIP default) (lms.getD LEFT_KNEE default)) 0.01),
   (RIGHT_ELBOW, max (distance (lms.getD RIGHT_ELBOW default) (lms.getD RIGHT_WRIST default)) 0.01),
   (RIGHT_SHOULDER, max (distance (lms.getD RIGHT_SHOULDER default) (lms.getD RIGHT_ELBOW default)) 0.01),
   (LEFT_ELBOW, max (distance (lms.getD LEFT_ELBOW default) (lms.getD LEFT_WRIST default)) 0.01),
   (LEFT_SHOULDER, max (distance (lms.getD LEFT_SHOULDER default) (lms.getD LEFT_ELBOW default)) 0.01)]

/-- A 16-joint pose (indices 0–15), fully visible, making the left-arm
angle triple (11, 13, 15) comparable. -/
def pose16 : List Landmark :=
  [lmO, lmO, lmO, lmO, lmO, lmO, lmO, lmO, lmO, lmO, lmO, lmO, lmO, lmO, lmO, lmO]

/-- Two-joint reference pose with both joints visible. -/
def poseT2 : List Landmark := [lmO, lmW]

/-- Two-joint live pose with only the first joint visible. -/
def poseC2 : List Landmark := [lmO, lmZ]

/-- The distance from a landmark to itself is zero. -/
theorem distance_self (a : Landmark) : distance a a = 0 := by
  simp [distance]

/-- Euclidean distance is invariant under a common planar translation. -/
theorem distance_translate (d : ℝ × ℝ) (a b : Landmark) :
    distance (translate d a) (translate d b) = distance a b := by
  simp only [distance, translate]
  ring_nf

/-- Translation does not touch the visibility. -/
theorem effVis_translate (d : ℝ × ℝ) (lm : Landmark) : effVis (translate d lm) = effVis lm := rfl

/-- The midpoint of two translated landmarks is the translated midpoint. -/
theorem midpoint_translate (d : ℝ × ℝ) (a b : Landmark) :
    midpoint (translate d a) (translate d b) = translate d (midpoint a b) := by
  simp only [midpoint, translate, Landmark.mk.injEq, true_and, and_true]
  constructor <;> ring

/-- The visibility filter ignores a common planar translation. -/
theorem filterVisibleAux_map_translate (config : ComparisonConfig) (d : ℝ × ℝ) :
    ∀ (l : List Landmark) (n : Nat),
      filterVisibleAux config n (l.map (translate d)) = filterVisibleAux config n l
  | [], _ => rfl
  | lm :: rest, n => by
    simp only [List.map_cons, filterVisibleAux, effVis_translate,
      filterVisibleAux_map_translate config d rest (n + 1)]

/-- Every index produced by the visibility filter is in range. -/
theorem mem_filterVisibleAux {config : ComparisonConfig} :
    ∀ {l : List Landmark} {n i : Nat}, i ∈ filterVisibleAux config n l → n ≤ i ∧ i < n + l.length
  | [], _, _, h => by simp [filterVisibleAux] at h
  | lm :: rest, n, i, h => by
    simp only [filterVisibleAux] at h
    by_cases hv : effVis lm ≥ config.visibilityThreshold
    · rw [if_pos hv] at h
      rcases List.mem_cons.mp h with h | h
      · subst h; simp
      · have := mem_filterVisibleAux h
        constructor <;> [omega; (simp only [List.length_cons]; omega)]
    · rw [if_neg hv] at h
      have := mem_filterVisibleAux h
      constructor <;> [omega; (simp only [List.length_cons]; omega)]

/-- If no landmark passes the threshold the filter output is empty. -/
theorem filterVisibleAux_eq_nil {config : ComparisonConfig} :
    ∀ {l : List Landmark}, (∀ lm ∈ l, ¬ effVis lm ≥ config.visibilityThreshold) →
      ∀ n, filterVisibleAux config n l = []
  | [], _, _ => rfl
  | lm :: rest, h, n => by
    simp only [filterVisibleAux]
    rw [if_neg (h lm (List.mem_cons_self lm rest))]
    exact filterVisibleAux_eq_nil (fun x hx => h x (List.mem_cons_of_mem lm hx)) (n + 1)

/-- The visibility filter reads only the visibility threshold of the
configuration. -/
theorem filterVisibleAux_congr {c1 c2 : ComparisonConfig}
    (h : c1.visibilityThreshold = c2.visibilityThreshold) :
    ∀ (l : List Landmark) (n : Nat), filterVisibleAux c1 n l = filterVisibleAux c2 n l
  | [], _ => rfl
  | lm :: rest, n => by
    simp only [filterVisibleAux, h, filterVisibleAux_congr h rest (n + 1)]

/-- `filterVisibleLandmarks` ignores translation. -/
theorem filterVisibleLandmarks_map_translate (config : ComparisonConfig) (d : ℝ × ℝ)
    (l : List Landmark) :
    filterVisibleLandmarks (l.map (translate d)) config = filterVisibleLandmarks l config :=
  filterVisibleAux_map_translate config d l 0

/-- `filterVisibleLandmarks` reads only the visibility threshold. -/
theorem filterVisibleLandmarks_congr {c1 c2 : ComparisonConfig}
    (h : c1.visibilityThreshold = c2.visibilityThreshold) (l : List Landmark) :
    filterVisibleLandmarks l c1 = filterVisibleLandmarks l c2 :=
  filterVisibleAux_congr h l 0

/-- Indices produced by `filterVisibleLandmarks` are in range. -/
theorem mem_filterVisibleLandmarks_lt {config : ComparisonConfig} {l : List Landmark} {i : Nat}
    (h : i ∈ filterVisibleLandmarks l config) : i < l.length := by
  have := mem_filterVisibleAux h
  omega

/-- `normalizePose` fails exactly when no landmark passes the filter. -/
theorem normalizePose_eq_none_iff {l : List Landmark} {config : ComparisonConfig} :
    normalizePose l config = none ↔ filterVisibleLandmarks l config = [] := by
  by_cases h : filterVisibleLandmarks l config = [] <;> simp [normalizePose, h]

/-- A successful normalization records exactly the filtered indices. -/
theorem normalizePose_vis {l : List Landmark} {config : ComparisonConfig} {np : NormalizedPose}
    (h : normalizePose l config = some np) :
    np.visibleLandmarkIndices = filterVisibleLandmarks l config := by
  by_cases hfv : filterVisibleLandmarks l config = []
  · simp [normalizePose, hfv] at h
  · simp only [normalizePose, hfv, if_false, Option.some.injEq] at h
    rw [← h]

/-- A successful normalization exists exactly when some landmark passes
the filter. -/
theorem normalizePose_isSome {l : List Landmark} {config : ComparisonConfig}
    (h : filterVisibleLandmarks l config ≠ []) : ∃ np, normalizePose l config = some np := by
  simp only [normalizePose, h, if_neg]
  exact ⟨_, rfl⟩

/-- An empty pose has no visible landmarks. -/
theorem filterVisibleLandmarks_nil (config : ComparisonConfig) :
    filterVisibleLandmarks [] config = [] := rfl

/-- The angle-at-vertex computation is nonnegative. -/
theorem computeAngle_nonneg (a b c : Landmark) : 0 ≤ computeAngle a b c := by
  simp only [computeAngle]
  split_ifs with h
  · exact le_refl 0
  · exact mul_nonneg (Real.arccos_nonneg _) (by positivity)

/-- The angle-at-vertex computation never exceeds 180 degrees. -/
theorem computeAngle_le_180 (a b c : Landmark) : computeAngle a b c ≤ 180 := by
  simp only [computeAngle]
  split_ifs with h
  · norm_num
  · calc Real.arccos _ * (180 / Real.pi) ≤ Real.pi * (180 / Real.pi) :=
          mul_le_mul_of_nonneg_right (Real.arccos_le_pi _) (by positivity)
    _ = 180 := by
          rw [mul_comm, div_mul_cancel₀]
          exact Real.pi_ne_zero

/-- The mean of a list of nonnegative reals is nonnegative. -/
theorem list_mean_nonneg (l : List ℝ) (h : ∀ x ∈ l, 0 ≤ x) : 0 ≤ l.sum / l.length :=
  div_nonneg (List.sum_nonneg h) (Nat.cast_nonneg _)

/-- The mean of a nonempty list of reals bounded by `b` is bounded by
`b`. -/
theorem list_mean_le (l : List ℝ) (hne : l ≠ []) {b : ℝ} (h : ∀ x ∈ l, x ≤ b) :
    l.sum / l.length ≤ b := by
  have hlen : 0 < (l.length : ℝ) := by
    exact_mod_cast List.length_pos.mpr hne
  rw [div_le_iff₀ hlen]
  have hs := List.sum_le_card_nsmul l b h
  rwa [nsmul_eq_mul, mul_comm] at hs

/-- Every normalized angle difference produced by the angle feature
extractor lies in [0, 1/2]. -/
theorem computeAngleFeatures_mem_bounds {tp cp : NormalizedPose} {x : ℝ}
    (hx : x ∈ computeAngleFeatures tp cp) : 0 ≤ x ∧ x ≤ 1 / 2 := by
  rw [computeAngleFeatures, List.mem_filterMap] at hx
  obtain ⟨t, htmem, ht⟩ := hx
  dsimp only at ht
  split_ifs at ht with hcond
  · injection ht with ht
    subst ht
    set ta := computeAngle (tp.landmarks.getD t.1 default)
      (tp.landmarks.getD t.2.1 default) (tp.landmarks.getD t.2.2 default) with hta
    set ca := computeAngle (cp.landmarks.getD t.1 default)
      (cp.landmarks.getD t.2.1 default) (cp.landmarks.getD t.2.2 default) with hca
    have hta0 := computeAngle_nonneg (tp.landmarks.getD t.1 default)
      (tp.landmarks.getD t.2.1 default) (tp.landmarks.getD t.2.2 default)
    have hta1 := computeAngle_le_180 (tp.landmarks.getD t.1 default)
      (tp.landmarks.getD t.2.1 default) (tp.landmarks.getD t.2.2 default)
    have hca0 := computeAngle_nonneg (cp.landmarks.getD t.1 default)
      (cp.landmarks.getD t.2.1 default) (cp.landmarks.getD t.2.2 default)
    have hca1 := computeAngle_le_180 (cp.landmarks.getD t.1 default)
      (cp.landmarks.getD t.2.1 default) (cp.landmarks.getD t.2.2 default)
    rw [← hta] at hta0 hta1
    rw [← hca] at hca0 hca1
    have hd0 : 0 ≤ |ta - ca| := abs_nonneg _
    have hd1 : |ta - ca| ≤ 180 := abs_le.mpr ⟨by linarith, by linarith⟩
    have hmin0 : 0 ≤ min |ta - ca| (180 - |ta - ca|) := le_min hd0 (by linarith)
    have hmin1 : min |ta - ca| (180 - |ta - ca|) ≤ 90 := by
      rcases le_total |ta - ca| 90 with h | h
      · exact le_trans (min_le_left _ _) h
      · exact le_trans (min_le_right _ _) (by linarith)
    constructor
    · exact div_nonneg hmin0 (by norm_num)
    · rw [div_le_iff₀ (by norm_num : (0:ℝ) < 180)]
      linarith

/-- C6: the angle-at-vertex operation returns a value in [0, 180]
degrees, and returns exactly 0 whenever either vector from the middle
point to an endpoint has zero length. -/
theorem computeAngle_range_and_degenerate (a b c : Landmark) :
    (0 ≤ computeAngle a b c ∧ computeAngle a b c ≤ 180) ∧
    (((a.x = b.x ∧ a.y = b.y) ∨ (c.x = b.x ∧ c.y = b.y)) → computeAngle a b c = 0) := by
  refine ⟨⟨computeAngle_nonneg a b c, computeAngle_le_180 a b c⟩, ?_⟩
  intro h
  simp only [computeAngle]
  rcases h with ⟨h1, h2⟩ | ⟨h1, h2⟩
  · rw [if_pos (Or.inl (by simp [h1, h2]))]
  · rw [if_pos (Or.inr (by simp [h1, h2]))]

/-- Witness for C6 at the degenerate concrete input where all three
points coincide. -/
theorem computeAngle_range_witness :
    (lmO.x = lmO.x ∧ lmO.y = lmO.y) ∧ computeAngle lmO lmO lmO = 0 :=
  ⟨⟨rfl, rfl⟩, (computeAngle_range_and_degenerate lmO lmO lmO).2 (Or.inl ⟨rfl, rfl⟩)⟩

/-- Standard-mode success branch of the entry point. -/
theorem comparePoses_ok_standard {t c : List Landmark} {config : ComparisonConfig}
    {tp cp : NormalizedPose}
    (ht : t.length ≠ 0) (hc : c.length ≠ 0) (hao : config.angleOnly = false)
    (h1 : normalizePose t config = some tp) (h2 : normalizePose c config = some cp)
    (hval : (computeDistanceFeatures tp cp).validCount ≠ 0) :
    comparePoses t c config = Except.ok (standardResult tp cp config) := by
  rw [comparePoses, if_neg (by simp [ht, hc]), hao, h1, h2]
  show (if (computeDistanceFeatures tp cp).validCount = 0 then Except.ok degenerateResult
    else Except.ok (standardResult tp cp config)) = _
  rw [if_neg hval]

/-- Degenerate branch of the entry point when the live pose fails to
normalize. -/
theorem comparePoses_degenerate_right {t c : List Landmark} {config : ComparisonConfig}
    (ht : t.length ≠ 0) (hc : c.length ≠ 0) (hao : config.angleOnly = false)
    (h2 : normalizePose c config = none) :
    comparePoses t c config = Except.ok degenerateResult := by
  rw [comparePoses, if_neg (by simp [ht, hc]), hao, h2]
  cases h1 : normalizePose t config <;> rfl

/-- C2: `comparePoses` raises the invalid-input error exactly when one of
the poses is empty; for every non-empty pair and every configuration it
returns a `ComparisonResult` and never raises. -/
theorem comparePoses_ok_iff_nonempty (t c : List Landmark) (config : ComparisonConfig) :
    (∃ r, comparePoses t c config = Except.ok r) ↔ (t ≠ [] ∧ c ≠ []) := by
  rw [comparePoses]
  by_cases hcond : t.length = 0 ∨ c.length = 0
  · rw [if_pos hcond]
    simp only [List.length_eq_zero] at hcond
    constructor
    · rintro ⟨r, hr⟩
      exact absurd hr (by simp)
    · rintro ⟨h1, h2⟩
      rcases hcond with h' | h'
      · exact absurd h' h1
      · exact absurd h' h2
  · rw [if_neg hcond]
    push_neg at hcond
    constructor
    · intro _
      refine ⟨fun he => hcond.1 (by simp [he]), fun he => hcond.2 (by simp [he])⟩
    · intro _
      cases hao : config.angleOnly
      · simp only [Bool.false_eq_true, if_false]
        cases h1 : normalizePose t config with
        | none => exact ⟨degenerateResult, rfl⟩
        | some tp =>
          cases h2 : normalizePose c config with
          | none => exact ⟨degenerateResult, rfl⟩
          | some cp =>
            show ∃ r, (if (computeDistanceFeatures tp cp).validCount = 0
              then Except.ok degenerateResult
              else Except.ok (standardResult tp cp config)) = Except.ok r
            by_cases hv : (computeDistanceFeatures tp cp).validCount = 0
            · rw [if_pos hv]; exact ⟨_, rfl⟩
            · rw [if_neg hv]; exact ⟨_, rfl⟩
      · exact ⟨_, rfl⟩

/-- Witness for C2 at a concrete non-empty pair of poses. -/
theorem comparePoses_ok_iff_nonempty_witness :
    (∃ r, comparePoses [lmO] [lmO] DEFAULT_CONFIG = Except.ok r) ↔
      ([lmO] ≠ ([] : List Landmark) ∧ [lmO] ≠ ([] : List Landmark)) :=
  comparePoses_ok_iff_nonempty [lmO] [lmO] DEFAULT_CONFIG

/-- C7: a fully occluded live pose yields the degenerate result —
similarity 0, no match, zero valid landmarks, no compared regions — and
no exception. -/
theorem comparePoses_total_occlusion (t c : List Landmark) (ht : t ≠ []) (hc : c ≠ [])
    (hvis : ∀ lm ∈ c, lm.visibility = some 0) :
    comparePoses t c DEFAULT_CONFIG = Except.ok degenerateResult ∧
      degenerateResult.similarity = 0 ∧ degenerateResult.isMatching = false ∧
      degenerateResult.validLandmarks = 0 ∧ degenerateResult.comparedRegions = [] := by
  have hfv : filterVisibleLandmarks c DEFAULT_CONFIG = [] :=
    filterVisibleAux_eq_nil
      (fun lm hlm => by norm_num [effVis, hvis lm hlm, DEFAULT_CONFIG]) 0
  have h2 : normalizePose c DEFAULT_CONFIG = none := normalizePose_eq_none_iff.mpr hfv
  refine ⟨?_, rfl, rfl, rfl, rfl⟩
  exact comparePoses_degenerate_right
    (fun h => ht (List.length_eq_zero.mp h))
    (fun h => hc (List.length_eq_zero.mp h)) rfl h2

/-- Witness for C7: a one-joint reference against a one-joint fully
occluded live pose. -/
theorem comparePoses_total_occlusion_witness :
    comparePoses [lmO] [lmZ] DEFAULT_CONFIG = Except.ok degenerateResult ∧
      degenerateResult.similarity = 0 ∧ degenerateResult.isMatching = false ∧
      degenerateResult.validLandmarks = 0 ∧ degenerateResult.comparedRegions = [] :=
  comparePoses_total_occlusion [lmO] [lmZ] (by simp) (by simp)
    (fun lm hlm => by
      rw [List.mem_singleton] at hlm
      rw [hlm]
      rfl)

/-- The angle-only path never reports a per-region breakdown. -/
theorem compareAnglesOnly_regionDistances (t c : List Landmark) (config : ComparisonConfig) :
    (compareAnglesOnly t c config).regionDistances = none := by
  rw [compareAnglesOnly]
  cases h1 : normalizePose t config with
  | none => rfl
  | some tp =>
    cases h2 : normalizePose c config with
    | none => rfl
    | some cp =>
      show (if (computeAngleFeatures tp cp).length = 0 then degenerateResult
        else anglesOnlyResult tp cp config).regionDistances = none
      split_ifs <;> rfl

/-- Every key of the standard result's per-region breakdown is a
compared region. -/
theorem standardResult_keys_subset (tp cp : NormalizedPose) (config : ComparisonConfig) :
    ((standardResult tp cp config).regionDistances.getD []).map Prod.fst ⊆
      (standardResult tp cp config).comparedRegions := by
  intro reg hreg
  simp only [standardResult, Option.getD_some, List.mem_map, List.mem_filterMap] at hreg ⊢
  obtain ⟨p, ⟨region, hregion, hp⟩, hfst⟩ := hreg
  split_ifs at hp with hlen
  injection hp with hp
  rw [← hp] at hfst
  rw [← hfst]
  exact hregion

/-- C8: every region tag that appears as a key of `regionDistances` also
appears in `comparedRegions`. -/
theorem comparePoses_region_consistency (t c : List Landmark) (config : ComparisonConfig)
    (r : ComparisonResult) (h : comparePoses t c config = Except.ok r) :
    (r.regionDistances.getD []).map Prod.fst ⊆ r.comparedRegions := by
  rw [comparePoses] at h
  split_ifs at h with hcond hao
  · injection h with h
    rw [← h, compareAnglesOnly_regionDistances]
    simp
  · cases h1 : normalizePose t config <;> rw [h1] at h
    · cases h2 : normalizePose c config <;> rw [h2] at h <;> dsimp only at h <;>
        injection h with h <;> rw [← h] <;> simp [degenerateResult]
    · cases h2 : normalizePose c config <;> rw [h2] at h <;> dsimp only at h
      · injection h with h
        rw [← h]
        simp [degenerateResult]
      · split_ifs at h with hv
        · injection h with h
          rw [← h]
          simp [degenerateResult]
        · injection h with h
          rw [← h]
          exact standardResult_keys_subset _ _ config

/-- Witness for C8 at a concrete call that returns a result. -/
theorem comparePoses_region_consistency_witness :
    (degenerateResult.regionDistances.getD []).map Prod.fst ⊆ degenerateResult.comparedRegions := by
  have hfv : filterVisibleLandmarks [lmZ] DEFAULT_CONFIG = [] :=
    filterVisibleAux_eq_nil
      (fun lm hlm => by
        rw [List.mem_singleton] at hlm
        norm_num [effVis, hlm, lmZ, DEFAULT_CONFIG]) 0
  exact comparePoses_region_consistency [lmO] [lmZ] DEFAULT_CONFIG degenerateResult
    (comparePoses_degenerate_right (by simp) (by simp) rfl
      (normalizePose_eq_none_iff.mpr hfv))

/-- C10: in standard mode, whenever the poses share a mutually visible
joint, `landmarksCompared` is the number of visibility-filtered joints of
the reference pose alone (not the size of the common index set). -/
theorem comparePoses_landmarksCompared (t c : List Landmark) (config : ComparisonConfig)
    (hao : config.angleOnly = false)
    (hcommon : (filterVisibleLandmarks t config).filter
        (fun i => decide (i ∈ filterVisibleLandmarks c config)) ≠ []) :
    ∃ r, comparePoses t c config = Except.ok r ∧
      r.landmarksCompared = (filterVisibleLandmarks t config).length := by
  have hfvt : filterVisibleLandmarks t config ≠ [] := by
    intro h0
    rw [h0] at hcommon
    exact hcommon rfl
  have hfvc : filterVisibleLandmarks c config ≠ [] := by
    intro h0
    rw [h0] at hcommon
    exact hcommon (by simp)
  have ht : t.length ≠ 0 := fun h => hfvt (by rw [List.length_eq_zero.mp h]; rfl)
  have hc : c.length ≠ 0 := fun h => hfvc (by rw [List.length_eq_zero.mp h]; rfl)
  obtain ⟨tp, htp⟩ := normalizePose_isSome hfvt
  obtain ⟨cp, hcp⟩ := normalizePose_isSome hfvc
  have hvt := normalizePose_vis htp
  have hvc := normalizePose_vis hcp
  have hval : (computeDistanceFeatures tp cp).validCount ≠ 0 := by
    simp only [computeDistanceFeatures, hvt, hvc]
    intro h0
    exact hcommon (List.length_eq_zero.mp h0)
  refine ⟨standardResult tp cp config,
    comparePoses_ok_standard ht hc hao htp hcp hval, ?_⟩
  simp only [standardResult]
  rw [hvt]

/-- Witness for C10: a two-joint reference with both joints visible
against a live pose with one visible joint; `landmarksCompared` is 2
while only one joint is common. -/
theorem comparePoses_landmarksCompared_witness :
    DEFAULT_CONFIG.angleOnly = false ∧
    ∃ r, comparePoses poseT2 poseC2 DEFAULT_CONFIG = Except.ok r ∧
      r.landmarksCompared = (filterVisibleLandmarks poseT2 DEFAULT_CONFIG).length := by
  have hfvt : filterVisibleLandmarks poseT2 DEFAULT_CONFIG = [0, 1] := by
    norm_num [filterVisibleLandmarks, filterVisibleAux, poseT2, lmO, lmW, effVis, DEFAULT_CONFIG]
  have hfvc : filterVisibleLandmarks poseC2 DEFAULT_CONFIG = [0] := by
    norm_num [filterVisibleLandmarks, filterVisibleAux, poseC2, lmO, lmZ, effVis, DEFAULT_CONFIG]
  refine ⟨rfl, comparePoses_landmarksCompared poseT2 poseC2 DEFAULT_CONFIG rfl ?_⟩
  rw [hfvt, hfvc]
  decide

/-- C1 (amended): comparing a pose against an exact copy of itself under
the default configuration yields similarity 1 and a match, provided at
least one joint passes the default visibility filter. -/
theorem comparePoses_identity (p : List Landmark) (h33 : p.length = 33)
    (hvis : filterVisibleLandmarks p DEFAULT_CONFIG ≠ []) :
    ∃ r, comparePoses p p DEFAULT_CONFIG = Except.ok r ∧
      r.similarity = 1 ∧ r.isMatching = true := by
  have ht : p.length ≠ 0 := by rw [h33]; norm_num
  obtain ⟨np, hnp⟩ := normalizePose_isSome hvis
  have hvisnp := normalizePose_vis hnp
  have hcommon : np.visibleLandmarkIndices.filter
      (fun i => decide (i ∈ np.visibleLandmarkIndices)) = np.visibleLandmarkIndices :=
    List.filter_eq_self.mpr (fun a ha => by simpa using ha)
  have hval : (computeDistanceFeatures np np).validCount ≠ 0 := by
    simp only [computeDistanceFeatures, hcommon]
    rw [hvisnp]
    intro h0
    exact hvis (List.length_eq_zero.mp h0)
  have hd : (computeDistanceFeatures np np).distances.sum = 0 := by
    apply List.sum_eq_zero
    intro x hx
    simp only [computeDistanceFeatures, List.mem_map] at hx
    obtain ⟨i, _, hi⟩ := hx
    rw [← hi, distance_self]
  refine ⟨standardResult np np DEFAULT_CONFIG,
    comparePoses_ok_standard ht ht rfl hnp hnp hval, ?_, ?_⟩
  · show (standardResult np np DEFAULT_CONFIG).similarity = 1
    simp only [standardResult]
    rw [hd]
    norm_num [DEFAULT_CONFIG, max_def, min_def]
  · show (standardResult np np DEFAULT_CONFIG).isMatching = true
    simp only [standardResult]
    rw [hd]
    norm_num [DEFAULT_CONFIG, max_def, min_def]

/-- Witness for C1's amended statement: the all-visible 33-joint pose. -/
theorem comparePoses_identity_witness :
    pose33v.length = 33 ∧
    ∃ r, comparePoses pose33v pose33v DEFAULT_CONFIG = Except.ok r ∧
      r.similarity = 1 ∧ r.isMatching = true := by
  refine ⟨rfl, comparePoses_identity pose33v rfl ?_⟩
  show filterVisibleAux DEFAULT_CONFIG 0 pose33v ≠ []
  rw [pose33v, filterVisibleAux, if_pos (by norm_num [effVis, lmV, DEFAULT_CONFIG])]
  simp

/-- Counterexample to C1 as stated: a 33-joint pose that is a non-empty
sequence, compared against an exact copy of itself under the default
configuration, yet yielding similarity 0 and no match because every
joint is fully occluded. -/
theorem comparePoses_identity_counterexample :
    pose33z.length = 33 ∧
    comparePoses pose33z pose33z DEFAULT_CONFIG = Except.ok degenerateResult ∧
    degenerateResult.similarity = 0 ∧ degenerateResult.isMatching = false := by
  refine ⟨rfl, ?_, rfl, rfl⟩
  have hfv : filterVisibleLandmarks pose33z DEFAULT_CONFIG = [] :=
    filterVisibleAux_eq_nil
      (fun lm hlm => by
        have hl : lm = lmZ := by simpa [pose33z] using hlm
        norm_num [hl, effVis, lmZ, DEFAULT_CONFIG]) 0
  exact comparePoses_degenerate_right (by simp [pose33z]) (by simp [pose33z]) rfl
    (normalizePose_eq_none_iff.mpr hfv)

/-- Angle-only success branch of the entry point. -/
theorem comparePoses_ok_angleOnly {t c : List Landmark} {config : ComparisonConfig}
    {tp cp : NormalizedPose}
    (ht : t.length ≠ 0) (hc : c.length ≠ 0) (hao : config.angleOnly = true)
    (h1 : normalizePose t config = some tp) (h2 : normalizePose c config = some cp)
    (hne : (computeAngleFeatures tp cp).length ≠ 0) :
    comparePoses t c config = Except.ok (anglesOnlyResult tp cp config) := by
  rw [comparePoses, if_neg (by simp [ht, hc]), hao, if_pos rfl, compareAnglesOnly, h1, h2]
  show Except.ok (if (computeAngleFeatures tp cp).length = 0 then degenerateResult
    else anglesOnlyResult tp cp config) = _
  rw [if_neg hne]

/-- C9: every normalized angle difference lies in [0, 1/2]; consequently
in angle-only mode, whenever at least one joint triple is comparable the
similarity is at least 1/2 and, under the default similarity threshold
of 0.5, the result is always a match. -/
theorem angleOnly_always_matches :
    (∀ (tp cp : NormalizedPose), ∀ x ∈ computeAngleFeatures tp cp, 0 ≤ x ∧ x ≤ 1 / 2) ∧
    (∀ t c : List Landmark,
      (∃ tr ∈ jointTriples,
        (tr.1 ∈ filterVisibleLandmarks t angleOnlyConfig ∧
         tr.2.1 ∈ filterVisibleLandmarks t angleOnlyConfig ∧
         tr.2.2 ∈ filterVisibleLandmarks t angleOnlyConfig) ∧
        (tr.1 ∈ filterVisibleLandmarks c angleOnlyConfig ∧
         tr.2.1 ∈ filterVisibleLandmarks c angleOnlyConfig ∧
         tr.2.2 ∈ filterVisibleLandmarks c angleOnlyConfig)) →
      ∃ r, comparePoses t c angleOnlyConfig = Except.ok r ∧
        1 / 2 ≤ r.similarity ∧ r.isMatching = true) := by
  refine ⟨fun tp cp x hx => computeAngleFeatures_mem_bounds hx, ?_⟩
  rintro t c ⟨tr, htr, ⟨h1, h2, h3⟩, h4, h5, h6⟩
  have hfvt : filterVisibleLandmarks t angleOnlyConfig ≠ [] := by
    intro h0
    rw [h0] at h1
    exact List.not_mem_nil _ h1
  have hfvc : filterVisibleLandmarks c angleOnlyConfig ≠ [] := by
    intro h0
    rw [h0] at h4
    exact List.not_mem_nil _ h4
  have ht : t.length ≠ 0 := fun h => hfvt (by rw [List.length_eq_zero.mp h]; rfl)
  have hc : c.length ≠ 0 := fun h => hfvc (by rw [List.length_eq_zero.mp h]; rfl)
  obtain ⟨tp, htp⟩ := normalizePose_isSome hfvt
  obtain ⟨cp, hcp⟩ := normalizePose_isSome hfvc
  have hvt := normalizePose_vis htp
  have hvc := normalizePose_vis hcp
  have hne : computeAngleFeatures tp cp ≠ [] := by
    intro h0
    have hnone := List.filterMap_eq_nil_iff.mp h0 tr htr
    rw [if_pos (by rw [hvt, hvc]; exact ⟨h1, h2, h3, h4, h5, h6⟩)] at hnone
    exact Option.noConfusion hnone
  have hne' : (computeAngleFeatures tp cp).length ≠ 0 :=
    fun h0 => hne (List.length_eq_zero.mp h0)
  have hub : (computeAngleFeatures tp cp).sum / ((computeAngleFeatures tp cp).length : ℝ) ≤ 1 / 2 :=
    list_mean_le _ hne (fun x hx => (computeAngleFeatures_mem_bounds hx).2)
  have hlb : 0 ≤ (computeAngleFeatures tp cp).sum / ((computeAngleFeatures tp cp).length : ℝ) :=
    list_mean_nonneg _ (fun x hx => (computeAngleFeatures_mem_bounds hx).1)
  refine ⟨anglesOnlyResult tp cp angleOnlyConfig,
    comparePoses_ok_angleOnly ht hc rfl htp hcp hne', ?_, ?_⟩
  · show 1 / 2 ≤ (anglesOnlyResult tp cp angleOnlyConfig).similarity
    simp only [anglesOnlyResult]
    rw [min_eq_right (by linarith), max_eq_right (by linarith)]
    linarith
  · show (anglesOnlyResult tp cp angleOnlyConfig).isMatching = true
    simp only [anglesOnlyResult, decide_eq_true_eq]
    show 1 - _ ≥ angleOnlyConfig.similarityThreshold
    have hth : angleOnlyConfig.similarityThreshold = 0.5 := rfl
    rw [hth]
    norm_num
    linarith

/-- Witness for C9: a fully visible 16-joint pose against itself in
angle-only mode. -/
theorem angleOnly_always_matches_witness :
    ∃ r, comparePoses pose16 pose16 angleOnlyConfig = Except.ok r ∧
      1 / 2 ≤ r.similarity ∧ r.isMatching = true := by
  have hfv : filterVisibleLandmarks pose16 angleOnlyConfig =
      [0, 1, 2, 3, 4, 5, 6, 7, 8, 9, 10, 11, 12, 13, 14, 15] := by
    norm_num [filterVisibleLandmarks, filterVisibleAux, pose16, lmO, effVis,
      angleOnlyConfig, DEFAULT_CONFIG]
  refine angleOnly_always_matches.2 pose16 pose16
    ⟨(LEFT_SHOULDER, LEFT_ELBOW, LEFT_WRIST), by decide, ?_, ?_⟩ <;>
    · rw [hfv]
      exact ⟨by decide, by decide, by decide⟩

/-- The per-index visibility test reads only the visibility threshold. -/
theorem isVisibleIdx_congr {c1 c2 : ComparisonConfig}
    (h : c1.visibilityThreshold = c2.visibilityThreshold) (l : List Landmark) (idx : Nat) :
    isVisibleIdx l c1 idx = isVisibleIdx l c2 idx := by
  simp only [isVisibleIdx, h]

/-- Region detection reads only the visibility threshold. -/
theorem detectVisibleRegions_congr {c1 c2 : ComparisonConfig}
    (h : c1.visibilityThreshold = c2.visibilityThreshold) (l : List Landmark) :
    detectVisibleRegions l c1 = detectVisibleRegions l c2 := by
  simp only [detectVisibleRegions, isVisibleIdx_congr h]

/-- Pose normalization reads only the visibility threshold and the
per-limb flag. -/
theorem normalizePose_congr {c1 c2 : ComparisonConfig}
    (hv : c1.visibilityThreshold = c2.visibilityThreshold)
    (hp : c1.perLimbNormalization = c2.perLimbNormalization) (l : List Landmark) :
    normalizePose l c1 = normalizePose l c2 := by
  simp only [normalizePose, filterVisibleLandmarks_congr hv, hp]

/-- The angle-only result reads only the visibility and similarity
thresholds. -/
theorem anglesOnlyResult_congr {c1 c2 : ComparisonConfig}
    (hv : c1.visibilityThreshold = c2.visibilityThreshold)
    (hs : c1.similarityThreshold = c2.similarityThreshold) (tp cp : NormalizedPose) :
    anglesOnlyResult tp cp c1 = anglesOnlyResult tp cp c2 := by
  simp only [anglesOnlyResult, hs, detectVisibleRegions_congr hv]

/-- The angle-only comparison never reads `distanceThreshold`,
`useAngles` or `angleWeight`. -/
theorem compareAnglesOnly_congr {c1 c2 : ComparisonConfig}
    (hv : c1.visibilityThreshold = c2.visibilityThreshold)
    (hp : c1.perLimbNormalization = c2.perLimbNormalization)
    (hs : c1.similarityThreshold = c2.similarityThreshold) (t c : List Landmark) :
    compareAnglesOnly t c c1 = compareAnglesOnly t c c2 := by
  rw [compareAnglesOnly, compareAnglesOnly,
    normalizePose_congr hv hp t, normalizePose_congr hv hp c]
  cases h1 : normalizePose t c2 with
  | none => rfl
  | some tp =>
    cases h2 : normalizePose c c2 with
    | none => rfl
    | some cp =>
      show (if (computeAngleFeatures tp cp).length = 0 then degenerateResult
          else anglesOnlyResult tp cp c1) =
        (if (computeAngleFeatures tp cp).length = 0 then degenerateResult
          else anglesOnlyResult tp cp c2)
      split_ifs
      · rfl
      · exact anglesOnlyResult_congr hv hs tp cp

/-- The standard-mode result reads only the visibility threshold, the
similarity threshold, the angle flag and the angle weight. -/
theorem standardResult_congr {c1 c2 : ComparisonConfig}
    (hv : c1.visibilityThreshold = c2.visibilityThreshold)
    (hs : c1.similarityThreshold = c2.similarityThreshold)
    (hu : c1.useAngles = c2.useAngles)
    (hw : c1.angleWeight = c2.angleWeight) (tp cp : NormalizedPose) :
    standardResult tp cp c1 = standardResult tp cp c2 := by
  simp only [standardResult, hs, hu, hw, detectVisibleRegions_congr hv]

/-- The entry point reads every configuration field except
`distanceThreshold`. -/
theorem comparePoses_congr {c1 c2 : ComparisonConfig}
    (hv : c1.visibilityThreshold = c2.visibilityThreshold)
    (hs : c1.similarityThreshold = c2.similarityThreshold)
    (hu : c1.useAngles = c2.useAngles)
    (hw : c1.angleWeight = c2.angleWeight)
    (hp : c1.perLimbNormalization = c2.perLimbNormalization)
    (hao : c1.angleOnly = c2.angleOnly) (t c : List Landmark) :
    comparePoses t c c1 = comparePoses t c c2 := by
  rw [comparePoses, comparePoses]
  by_cases hcond : t.length = 0 ∨ c.length = 0
  · rw [if_pos hcond, if_pos hcond]
  · rw [if_neg hcond, if_neg hcond, hao]
    cases hb : c2.angleOnly
    · simp only [Bool.false_eq_true, if_false]
      rw [normalizePose_congr hv hp t, normalizePose_congr hv hp c]
      cases h1 : normalizePose t c2 with
      | none => rfl
      | some tp =>
        cases h2 : normalizePose c c2 with
        | none => rfl
        | some cp =>
          show (if (computeDistanceFeatures tp cp).validCount = 0 then Except.ok degenerateResult
              else Except.ok (standardResult tp cp c1)) =
            (if (computeDistanceFeatures tp cp).validCount = 0 then Except.ok degenerateResult
              else Except.ok (standardResult tp cp c2))
          split_ifs
          · rfl
          · rw [standardResult_congr hv hs hu hw tp cp]
    · rw [if_pos rfl, if_pos rfl, compareAnglesOnly_congr hv hp hs t c]

/-- C4: the result of `comparePoses` does not depend on the
`distanceThreshold` configuration option. -/
theorem comparePoses_ignores_distanceThreshold (t c : List Landmark)
    (config : ComparisonConfig) (d : ℝ) :
    comparePoses t c { config with distanceThreshold := d } = comparePoses t c config :=
  @comparePoses_congr { config with distanceThreshold := d } config rfl rfl rfl rfl rfl rfl t c

/-- The presence-and-confidence check ignores translation. -/
theorem presVis_map_translate (d : ℝ × ℝ) (l : List Landmark) (i : Nat) :
    presVis ((l.map (translate d)).get? i) = presVis (l.get? i) := by
  rw [List.get?_map]
  cases l.get? i <;> rfl

/-- Unfolding of a true presence-and-confidence check. -/
theorem presVis_eq_true {o : Option Landmark} :
    presVis o = true ↔ ∃ lm, o = some lm ∧ effVis lm > 0.3 := by
  cases o <;> simp [presVis]

/-- `getD` on a mapped list at an in-range index. -/
theorem getD_map_of_lt {l : List Landmark} {i : Nat} (h : i < l.length)
    (f : Landmark → Landmark) (dflt : Landmark) :
    (l.map f).getD i dflt = f (l.getD i dflt) := by
  rw [List.getD_eq_get?, List.getD_eq_get?, List.get?_map, List.get?_eq_get h]
  rfl

/-- The largest-pairwise-distance fold ignores translation. -/
theorem maxPairDist_map_translate (d : ℝ × ℝ) :
    ∀ (l : List Landmark) (acc : ℝ),
      maxPairDist (l.map (translate d)) acc = maxPairDist l acc
  | [], _ => rfl
  | lm :: rest, acc => by
    rw [List.map_cons, maxPairDist, maxPairDist, List.foldl_map]
    simp only [distance_translate]
    exact maxPairDist_map_translate d rest _

/-- Summing a constant shift over a list of reals. -/
theorem list_sum_map_add_const (xs : List ℝ) (a : ℝ) :
    (xs.map (· + a)).sum = xs.sum + xs.length * a := by
  induction xs with
  | nil => simp
  | cons x xs ih =>
    simp only [List.map_cons, List.sum_cons, ih, List.length_cons]
    push_cast
    ring

/-- The mean of a coordinate projection shifts by the translation
component. -/
theorem list_mean_proj_translate (L : List Landmark) (hL : L ≠ []) (f : Landmark → ℝ)
    (g : Landmark → Landmark) (a : ℝ) (hfg : ∀ lm, f (g lm) = f lm + a) :
    ((L.map g).map f).sum / ((L.map g).length : ℝ) = (L.map f).sum / (L.length : ℝ) + a := by
  have hn : (L.length : ℝ) ≠ 0 := by
    exact_mod_cast fun h0 => hL (List.length_eq_zero.mp (by exact_mod_cast h0))
  rw [List.length_map, List.map_map]
  rw [show (f ∘ g) = fun lm => f lm + a from funext hfg]
  rw [show (fun lm => f lm + a) = ((· + a) ∘ f) from rfl, ← List.map_map]
  rw [list_sum_map_add_const, List.length_map, add_div, mul_div_cancel_left₀ a hn]

/-- At in-range indices, looking up in a translated pose is translating
the lookup. -/
theorem map_getD_map_translate (d : ℝ × ℝ) {l : List Landmark} {vis : List Nat}
    (hb : ∀ i ∈ vis, i < l.length) :
    vis.map (fun i => (l.map (translate d)).getD i default) =
      (vis.map fun i => l.getD i default).map (translate d) := by
  rw [List.map_map]
  exact List.map_congr_left fun i hi => getD_map_of_lt (hb i hi) (translate d) default

/-- The origin fallback chain commutes with translation. -/
theorem originOf_map_translate (d : ℝ × ℝ) (l : List Landmark) (vis : List Nat)
    (hb : ∀ i ∈ vis, i < l.length) (hne : vis ≠ []) :
    originOf (l.map (translate d)) vis = translate d (originOf l vis) := by
  rw [originOf, originOf]
  simp only [presVis_map_translate]
  by_cases h1 : (presVis (l.get? LEFT_HIP) && presVis (l.get? RIGHT_HIP)) = true
  · rw [if_pos h1, if_pos h1]
    rw [Bool.and_eq_true] at h1
    obtain ⟨lm1, hlm1, -⟩ := presVis_eq_true.mp h1.1
    obtain ⟨lm2, hlm2, -⟩ := presVis_eq_true.mp h1.2
    rw [List.get?_map, List.get?_map, hlm1, hlm2]
    exact midpoint_translate d lm1 lm2
  · rw [if_neg h1, if_neg h1]
    by_cases h2 : (presVis (l.get? LEFT_SHOULDER) && presVis (l.get? RIGHT_SHOULDER)) = true
    · rw [if_pos h2, if_pos h2]
      rw [Bool.and_eq_true] at h2
      obtain ⟨lm1, hlm1, -⟩ := presVis_eq_true.mp h2.1
      obtain ⟨lm2, hlm2, -⟩ := presVis_eq_true.mp h2.2
      rw [List.get?_map, List.get?_map, hlm1, hlm2]
      exact midpoint_translate d lm1 lm2
    · rw [if_neg h2, if_neg h2]
      by_cases h3 : presVis (l.get? NOSE) = true
      · rw [if_pos h3, if_pos h3]
        obtain ⟨lm, hlm, -⟩ := presVis_eq_true.mp h3
        rw [List.get?_map, hlm]
        rfl
      · rw [if_neg h3, if_neg h3]
        rw [map_getD_map_translate d hb]
        have hLne : (vis.map fun i => l.getD i default) ≠ [] := by
          simpa using hne
        simp only [translate, Landmark.mk.injEq]
        exact ⟨list_mean_proj_translate _ hLne Landmark.x (translate d) d.1 (fun lm => rfl),
          list_mean_proj_translate _ hLne Landmark.y (translate d) d.2 (fun lm => rfl),
          trivial, trivial⟩

/-- The scale fallback chain ignores translation. -/
theorem scaleOf_map_translate (d : ℝ × ℝ) (l : List Landmark) (vis : List Nat)
    (hb : ∀ i ∈ vis, i < l.length) :
    scaleOf (l.map (translate d)) vis = scaleOf l vis := by
  rw [scaleOf, scaleOf]
  simp only [presVis_map_translate]
  by_cases h1 : (presVis (l.get? LEFT_SHOULDER) && presVis (l.get? RIGHT_SHOULDER) &&
      presVis (l.get? LEFT_HIP) && presVis (l.get? RIGHT_HIP)) = true
  · rw [if_pos h1, if_pos h1]
    simp only [Bool.and_eq_true] at h1
    obtain ⟨⟨⟨hls, hrs⟩, hlh⟩, hrh⟩ := h1
    obtain ⟨ls, hls', -⟩ := presVis_eq_true.mp hls
    obtain ⟨rs, hrs', -⟩ := presVis_eq_true.mp hrs
    obtain ⟨lh, hlh', -⟩ := presVis_eq_true.mp hlh
    obtain ⟨rh, hrh', -⟩ := presVis_eq_true.mp hrh
    rw [List.get?_map, List.get?_map, List.get?_map, List.get?_map, hls', hrs', hlh', hrh']
    simp only [Option.map_some', Option.getD_some]
    rw [midpoint_translate, midpoint_translate, distance_translate]
  · rw [if_neg h1, if_neg h1]
    by_cases h2 : (presVis (l.get? LEFT_SHOULDER) && presVis (l.get? RIGHT_SHOULDER)) = true
    · rw [if_pos h2, if_pos h2]
      simp only [Bool.and_eq_true] at h2
      obtain ⟨ls, hls', -⟩ := presVis_eq_true.mp h2.1
      obtain ⟨rs, hrs', -⟩ := presVis_eq_true.mp h2.2
      rw [List.get?_map, List.get?_map, hls', hrs']
      simp only [Option.map_some', Option.getD_some]
      rw [distance_translate]
    · rw [if_neg h2, if_neg h2]
      rw [map_getD_map_translate d hb, maxPairDist_map_translate]

/-- Normalizing a translated pose gives the same normalized landmarks,
indices and scale; only the recorded origin shifts. -/
theorem normalizePose_map_translate (l : List Landmark) (config : ComparisonConfig)
    (hp : config.perLimbNormalization = false) (d : ℝ × ℝ) :
    normalizePose (l.map (translate d)) config =
      (normalizePose l config).map
        (fun np => { np with origin := translate d np.origin }) := by
  rw [normalizePose, normalizePose, filterVisibleLandmarks_map_translate, hp]
  by_cases hfv : filterVisibleLandmarks l config = []
  · rw [if_pos hfv, if_pos hfv]
    rfl
  · rw [if_neg hfv, if_neg hfv]
    simp only [Bool.false_eq_true, if_false, Option.map_some']
    have hb : ∀ i ∈ filterVisibleLandmarks l config, i < l.length := fun i hi =>
      mem_filterVisibleLandmarks_lt hi
    rw [originOf_map_translate d l _ hb hfv, scaleOf_map_translate d l _ hb]
    simp only [Option.some.injEq, NormalizedPose.mk.injEq]
    refine ⟨?_, trivial, trivial, trivial⟩
    rw [List.map_map]
    apply List.map_congr_left
    intro lm _
    show normalizeLm _ _ (translate d lm) = normalizeLm _ _ lm
    simp only [normalizeLm, translate, Landmark.mk.injEq]
    exact ⟨by ring, by ring, by trivial, by trivial⟩

/-- C5: translating every joint of the live pose by a constant planar
vector leaves the comparison result — in particular the reported
similarity — unchanged under the default configuration. -/
theorem comparePoses_translation_invariant (t c : List Landmark) (d : ℝ × ℝ) :
    comparePoses t (c.map (translate d)) DEFAULT_CONFIG = comparePoses t c DEFAULT_CONFIG := by
  rw [comparePoses, comparePoses]
  simp only [List.length_map]
  by_cases hcond : t.length = 0 ∨ c.length = 0
  · rw [if_pos hcond, if_pos hcond]
  · rw [if_neg hcond, if_neg hcond]
    simp only [show DEFAULT_CONFIG.angleOnly = false from rfl, Bool.false_eq_true, if_false]
    rw [normalizePose_map_translate c DEFAULT_CONFIG rfl d]
    cases h2 : normalizePose c DEFAULT_CONFIG with
    | none =>
      simp only [Option.map_none']
    | some cp =>
      simp only [Option.map_some']
      cases h1 : normalizePose t DEFAULT_CONFIG with
      | none => rfl
      | some tp => rfl

/-- An in-range `get?` expressed through `getD`. -/
theorem get?_eq_some_getD {l : List Landmark} {n : Nat} (h : n < l.length) :
    l.get? n = some (l.getD n default) := by
  rw [List.getD_eq_get?, List.get?_eq_get h]
  rfl

/-- A limb-length step on a full pose records the floored limb length. -/
theorem limbStepFn_eq {lms : List Landmark} {a b : Nat} (ha : a < lms.length)
    (hb : b < lms.length) (m : List (Nat × ℝ)) :
    limbStepFn lms m (a, b) =
      (a, max (distance (lms.getD a default) (lms.getD b default)) 0.01) :: m := by
  simp only [limbStepFn]
  rw [get?_eq_some_getD ha, get?_eq_some_getD hb]

/-- On a full 33-joint pose the limb-length fold is exactly the written
out `limbTable`. -/
theorem limbLengths_of_33 {lms : List Landmark} (h33 : lms.length = 33) :
    limbLengths lms = limbTable lms := by
  have h : ∀ a b : Nat, a < 33 → b < 33 → ∀ m : List (Nat × ℝ),
      limbStepFn lms m (a, b) =
        (a, max (distance (lms.getD a default) (lms.getD b default)) 0.01) :: m :=
    fun a b ha hb m => limbStepFn_eq (by omega) (by omega) m
  rw [limbLengths, limbs]
  simp only [List.foldl_cons, List.foldl_nil]
  rw [h _ _ (by decide) (by decide), h _ _ (by decide) (by decide),
    h _ _ (by decide) (by decide), h _ _ (by decide) (by decide),
    h _ _ (by decide) (by decide), h _ _ (by decide) (by decide),
    h _ _ (by decide) (by decide), h _ _ (by decide) (by decide),
    h _ _ (by decide) (by decide), h _ _ (by decide) (by decide)]
  rfl

/-- `get?` through the index-tracking landmark scaler. -/
theorem scaleLandmarksAux_get? (ll : List (Nat × ℝ)) :
    ∀ (l : List Landmark) (n i : Nat),
      (scaleLandmarksAux ll n l).get? i =
        (l.get? i).map (scaleLandmark (jsOr (ll.lookup (n + i)) 1))
  | [], n, i => by simp [scaleLandmarksAux]
  | lm :: rest, n, 0 => by simp [scaleLandmarksAux]
  | lm :: rest, n, i + 1 => by
    simp only [scaleLandmarksAux, List.get?_cons_succ]
    rw [scaleLandmarksAux_get? ll rest (n + 1) i,
      show n + 1 + i = n + (i + 1) from by omega]

/-- Association-list lookup skips a key that differs. -/
theorem lookup_cons_ne {i k : Nat} (h : i ≠ k) (v : ℝ) (es : List (Nat × ℝ)) :
    List.lookup i ((k, v) :: es) = List.lookup i es := by
  rw [List.lookup, show (i == k) = false from beq_eq_false_iff_ne.mpr h]

/-- Association-list lookup stops at a matching key. -/
theorem lookup_cons_eq (i : Nat) (v : ℝ) (es : List (Nat × ℝ)) :
    List.lookup i ((i, v) :: es) = some v := by
  rw [List.lookup, show (i == i) = true from by simp]

/-- The JavaScript fallback keeps a floored limb length. -/
theorem jsOr_some_max (x : ℝ) : jsOr (some (max x 0.01)) 1 = max x 0.01 := by
  simp only [jsOr]
  rw [if_neg]
  exact ne_of_gt (lt_of_lt_of_le (by norm_num) (le_max_right x 0.01))

/-- Scaling a landmark by 1 leaves it unchanged. -/
theorem scaleLandmark_one (lm : Landmark) : scaleLandmark 1 lm = lm := by
  cases lm with
  | mk x y z v => cases z <;> simp [scaleLandmark]

/-- C3 (amended): under per-limb normalization, a joint that is the
start index of a predefined limb is rescaled by the floored length of
the limb owning that start index after the source's last-write-wins map
construction (shoulders by their torso side, elbows by their forearm,
hips by their thigh, knees by their calf); every other joint — including
wrists and ankles, which are only limb end points — is left unscaled. -/
theorem normalizeLandmarksByLimbs_startIndexed (lms : List Landmark) (h33 : lms.length = 33)
    (i : Nat) :
    (normalizeLandmarksByLimbs lms).get? i =
      match startLimbEnd i with
      | some e => (lms.get? i).map (scaleLandmark
          (max (distance (lms.getD i default) (lms.getD e default)) 0.01))
      | none => lms.get? i := by
  rw [normalizeLandmarksByLimbs, scaleLandmarksAux_get?, Nat.zero_add,
    limbLengths_of_33 h33, limbTable]
  by_cases h11 : i = LEFT_SHOULDER
  · subst h11
    rw [show startLimbEnd LEFT_SHOULDER = some LEFT_HIP from by decide,
      lookup_cons_ne (by decide), lookup_cons_eq, jsOr_some_max]
  by_cases h12 : i = RIGHT_SHOULDER
  · subst h12
    rw [show startLimbEnd RIGHT_SHOULDER = some RIGHT_HIP from by decide,
      lookup_cons_eq, jsOr_some_max]
  by_cases h13 : i = LEFT_ELBOW
  · subst h13
    rw [show startLimbEnd LEFT_ELBOW = some LEFT_WRIST from by decide,
      lookup_cons_ne (by decide), lookup_cons_ne (by decide), lookup_cons_ne (by decide),
      lookup_cons_ne (by decide), lookup_cons_ne (by decide), lookup_cons_ne (by decide),
      lookup_cons_ne (by decide), lookup_cons_ne (by decide), lookup_cons_eq, jsOr_some_max]
  by_cases h14 : i = RIGHT_ELBOW
  · subst h14
    rw [show startLimbEnd RIGHT_ELBOW = some RIGHT_WRIST from by decide,
      lookup_cons_ne (by decide), lookup_cons_ne (by decide), lookup_cons_ne (by decide),
      lookup_cons_ne (by decide), lookup_cons_ne (by decide), lookup_cons_ne (by decide),
      lookup_cons_eq, jsOr_some_max]
  by_cases h23 : i = LEFT_HIP
  · subst h23
    rw [show startLimbEnd LEFT_HIP = some LEFT_KNEE from by decide,
      lookup_cons_ne (by decide), lookup_cons_ne (by decide), lookup_cons_ne (by decide),
      lookup_cons_ne (by decide), lookup_cons_ne (by decide), lookup_cons_eq, jsOr_some_max]
  by_cases h24 : i = RIGHT_HIP
  · subst h24
    rw [show startLimbEnd RIGHT_HIP = some RIGHT_KNEE from by decide,
      lookup_cons_ne (by decide), lookup_cons_ne (by decide), lookup_cons_ne (by decide),
      lookup_cons_eq, jsOr_some_max]
  by_cases h25 : i = LEFT_KNEE
  · subst h25
    rw [show startLimbEnd LEFT_KNEE = some LEFT_ANKLE from by decide,
      lookup_cons_ne (by decide), lookup_cons_ne (by decide), lookup_cons_ne (by decide),
      lookup_cons_ne (by decide), lookup_cons_eq, jsOr_some_max]
  by_cases h26 : i = RIGHT_KNEE
  · subst h26
    rw [show startLimbEnd RIGHT_KNEE = some RIGHT_ANKLE from by decide,
      lookup_cons_ne (by decide), lookup_cons_ne (by decide), lookup_cons_eq, jsOr_some_max]
  rw [show startLimbEnd i = none from by
      simp [startLimbEnd, h11, h12, h13, h14, h23, h24, h25, h26]]
  rw [lookup_cons_ne h12, lookup_cons_ne h11, lookup_cons_ne h26, lookup_cons_ne h24,
    lookup_cons_ne h25, lookup_cons_ne h23, lookup_cons_ne h14, lookup_cons_ne h12,
    lookup_cons_ne h13, lookup_cons_ne h11]
  show (lms.get? i).map (scaleLandmark (jsOr none 1)) = _
  cases lms.get? i <;> simp [jsOr, scaleLandmark_one]

/-- Witness for the amended C3 at a concrete pose and joint. -/
theorem normalizeLandmarksByLimbs_startIndexed_witness :
    (normalizeLandmarksByLimbs ex3).get? LEFT_WRIST = ex3.get? LEFT_WRIST := by
  have h := normalizeLandmarksByLimbs_startIndexed ex3 rfl LEFT_WRIST
  rw [show startLimbEnd LEFT_WRIST = none from by decide] at h
  exact h

/-- Counterexample to C3 as stated: on `ex3` the left wrist, an endpoint
of the left forearm of length 2, is left unscaled by the code instead of
being rescaled by its owning limb's length. -/
theorem normalizeLandmarksByLimbs_wrist_counterexample : ¬ wristScaledByOwnLimb := by
  intro h
  have h1 := h ex3 rfl
  rw [normalizeLandmarksByLimbs, scaleLandmarksAux_get?, Nat.zero_add,
    @limbLengths_of_33 ex3 rfl, limbTable] at h1
  rw [lookup_cons_ne (by decide), lookup_cons_ne (by decide), lookup_cons_ne (by decide),
    lookup_cons_ne (by decide), lookup_cons_ne (by decide), lookup_cons_ne (by decide),
    lookup_cons_ne (by decide), lookup_cons_ne (by decide), lookup_cons_ne (by decide),
    lookup_cons_ne (by decide)] at h1
  rw [show ex3.get? LEFT_WRIST = some lmW from rfl,
    show ex3.getD LEFT_ELBOW default = lmO from rfl,
    show ex3.getD LEFT_WRIST default = lmW from rfl] at h1
  have hsq : (lmO.x - lmW.x) ^ 2 + (lmO.y - lmW.y) ^ 2 +
      (lmO.z.getD 0 - lmW.z.getD 0) ^ 2 = 2 ^ 2 := by
    norm_num [lmO, lmW]
  have hd : distance lmO lmW = 2 := by
    rw [distance, hsq, Real.sqrt_sq (by norm_num : (0:ℝ) ≤ 2)]
  rw [hd, max_eq_left (by norm_num)] at h1
  have hx := congrArg (fun o => (Option.getD o default).x) h1
  simp only [Option.map_some', Option.getD_some] at hx
  norm_num [jsOr, scaleLandmark, lmW] at hx

end Statuesque
